import Mathlib

/-!
A shallow embedding of the race-registration watcher (src/watch_races.py and
src/check_registrations.py) together with theorems settling the frozen claims
about its specification.

Conventions of the embedding:
* Python strings are Lean `String`s; most computations work on `List Char`
  (`s.data`) so that everything is executable and kernel-reducible.
* Timestamps (`datetime.utcnow()`, ISO timestamps in the state files) are
  modelled as `Int` seconds; `timedelta(days = n)` is `n * 86400` seconds.
* Python dictionaries holding dedupe state are modelled as association lists.
* Network fetching and HTML-to-text conversion are external collaborators
  (spec section 1); the orchestrator models are parameterised by an opaque
  page-text acquisition function, while the error-to-value conventions the
  scripts themselves implement (exception handling in watch_races, in-band
  "__..." strings in check_registrations) are embedded.
-/

set_option autoImplicit false
set_option maxRecDepth 4096

/-! ## Character utilities

`str.lower()` restricted to the alphabets the scripts deal with: ASCII plus
the accented letters appearing in the month tables and regex classes. -/

def lowerChar (c : Char) : Char :=
  if 'A' ≤ c ∧ c ≤ 'Z' then Char.ofNat (c.toNat + 32)
  else if c = 'Á' then 'á'
  else if c = 'À' then 'à'
  else if c = 'Â' then 'â'
  else if c = 'Ã' then 'ã'
  else if c = 'Ç' then 'ç'
  else if c = 'É' then 'é'
  else if c = 'Ê' then 'ê'
  else if c = 'Í' then 'í'
  else if c = 'Ó' then 'ó'
  else if c = 'Ô' then 'ô'
  else if c = 'Õ' then 'õ'
  else if c = 'Ú' then 'ú'
  else if c = 'Ñ' then 'ñ'
  else c

/-- Python regex `\d` (ASCII digits as used by the scripts). -/
def isDigitCh (c : Char) : Bool := '0' ≤ c && c ≤ '9'

def isAsciiAlpha (c : Char) : Bool :=
  ('a' ≤ c && c ≤ 'z') || ('A' ≤ c && c ≤ 'Z')

/-- Python regex `\s`: space, tab, newline, carriage return, vertical tab, form feed. -/
def isSpaceCh (c : Char) : Bool :=
  c = ' ' || c = '\t' || c = '\n' || c = '\r' || c.toNat = 11 || c.toNat = 12

/-- Accented letters occurring in the scripts' patterns and month names
(lower- and upper-case). They are word characters for Python's `\b`. -/
def accentedLetters : List Char :=
  ['á', 'à', 'â', 'ã', 'ç', 'é', 'ê', 'í', 'ó', 'ô', 'õ', 'ú', 'ñ',
   'Á', 'À', 'Â', 'Ã', 'Ç', 'É', 'Ê', 'Í', 'Ó', 'Ô', 'Õ', 'Ú', 'Ñ']

/-- Python regex `\w` (word character) restricted to the relevant alphabet. -/
def isWordCh (c : Char) : Bool :=
  isAsciiAlpha c || isDigitCh c || c = '_' || accentedLetters.contains c

/-! ## String normalisation and containment -/

/-- One pass of `re.sub(r"\s+", " ", s)`: every maximal whitespace run becomes
a single space.  The boolean records whether the previous character belonged
to a whitespace run. -/
def collapseWS : Bool → List Char → List Char
  | _, [] => []
  | inRun, c :: rest =>
    if isSpaceCh c then
      if inRun then collapseWS true rest else ' ' :: collapseWS true rest
    else c :: collapseWS false rest

/-- Python `str.strip()` (whitespace at both ends). -/
def stripWS (l : List Char) : List Char :=
  ((l.dropWhile (fun c => isSpaceCh c)).reverse.dropWhile (fun c => isSpaceCh c)).reverse

/-- `norm` from watch_races.py: `re.sub(r"\s+"," ", s).strip().lower()`. -/
def normW (s : String) : String :=
  String.mk ((stripWS (collapseWS false s.data)).map lowerChar)

/-- `norm` from check_registrations.py: `re.sub(r"\s+"," ", s.lower()).strip()`.
Same operations, applied lower-first. -/
def normC (s : String) : String :=
  String.mk (stripWS (collapseWS false (s.data.map lowerChar)))

/-- Python substring containment `nee in hay` on character lists. -/
def strIn : List Char → List Char → Bool
  | nee, [] => nee.isEmpty
  | nee, c :: t => nee.isPrefixOf (c :: t) || strIn nee t

/-- Substring containment on strings (`k in low` in the scripts). -/
def containsStr (hay key : String) : Bool := strIn key.data hay.data

/-- Decimal value of a list of digit characters (`int(...)` on a captured
digit group). -/
def decNat (l : List Char) : Nat :=
  l.foldl (fun a c => a * 10 + (c.toNat - '0'.toNat)) 0

/-! ## Month tables (watch_races.py lines 25-27) -/

def PT_MONTHS : List (String × Nat) :=
  [("janeiro", 1), ("fevereiro", 2), ("março", 3), ("marco", 3), ("abril", 4),
   ("maio", 5), ("junho", 6), ("julho", 7), ("agosto", 8), ("setembro", 9),
   ("outubro", 10), ("novembro", 11), ("dezembro", 12)]

def ES_MONTHS : List (String × Nat) :=
  [("enero", 1), ("febrero", 2), ("marzo", 3), ("abril", 4), ("mayo", 5),
   ("junio", 6), ("julio", 7), ("agosto", 8), ("septiembre", 9),
   ("setiembre", 9), ("octubre", 10), ("noviembre", 11), ("diciembre", 12)]

def EN_MONTHS : List (String × Nat) :=
  [("january", 1), ("february", 2), ("march", 3), ("april", 4), ("may", 5),
   ("june", 6), ("july", 7), ("august", 8), ("september", 9), ("october", 10),
   ("november", 11), ("december", 12)]

/-! ## Python `datetime.date` model

`datetime.date(y, mn, d)` validates its arguments and raises `ValueError`
on an invalid calendar date; in `parse_date_fragment` that exception is
caught and the match is skipped.  `pyDate` returns `none` exactly when the
constructor would raise. -/

structure PyDate where
  year : Nat
  month : Nat
  day : Nat
deriving DecidableEq, Repr

def isLeapYear (y : Nat) : Bool :=
  y % 4 = 0 && (y % 100 ≠ 0 || y % 400 = 0)

def daysInMonth (y m : Nat) : Nat :=
  if m = 2 then (if isLeapYear y then 29 else 28)
  else if m = 4 ∨ m = 6 ∨ m = 9 ∨ m = 11 then 30
  else 31

/-- Calendar validity as enforced by `datetime.date.__new__`. -/
def validDate (y m d : Nat) : Prop :=
  1 ≤ y ∧ y ≤ 9999 ∧ 1 ≤ m ∧ m ≤ 12 ∧ 1 ≤ d ∧ d ≤ daysInMonth y m

instance (y m d : Nat) : Decidable (validDate y m d) := by
  unfold validDate; infer_instance

/-- `datetime.date(y, mn, d)` wrapped in the scripts' try/except. -/
def pyDate (y m d : Nat) : Option PyDate :=
  if validDate y m d then some ⟨y, m, d⟩ else none

/-- `date.toordinal()`: days since 0001-01-01 (proleptic Gregorian), used
through `days_until`. -/
def dateOrdinal (dt : PyDate) : Int :=
  let y := (dt.year : Int) - 1
  let dbm : Nat := (List.range (dt.month - 1)).foldl (fun a i => a + daysInMonth dt.year (i + 1)) 0
  y * 365 + y / 4 - y / 100 + y / 400 + (dbm : Int) + (dt.day : Int)

/-- `days_until` from watch_races.py line 100: `(d - date.today()).days`,
with "today" passed in as an ordinal. -/
def days_until (d : PyDate) (todayOrd : Int) : Int :=
  dateOrdinal d - todayOrd

/-! ## A small backtracking regex engine

The scripts use `re` with a fixed, finite set of patterns.  Each pattern is
compiled by hand into a matcher built from the combinators below, which
implement Python's leftmost, greedy, backtracking semantics for exactly the
constructs those patterns use (literals, character classes, greedy
counted/unbounded repetition of a class, optional groups, ordered
alternation, capture groups and the word boundary `\b`). -/

/-- Capture groups, indexed from 0 (Python group `i` is entry `i - 1`);
`none` = group did not participate in the match. -/
abbrev Caps := List (Option (List Char))

/-- A matcher continuation: receives the character preceding the current
position (for `\b`), the remaining input, and the captures so far. On
success it yields final captures, the character before the match end, and
the input after the match end. -/
abbrev K := Option Char → List Char → Caps → Option (Caps × Option Char × List Char)

/-- A matcher transforms the continuation for the rest of the pattern. -/
abbrev MC := K → K

def mEps : MC := fun k => k

def mSeq (a b : MC) : MC := fun k => a (b k)

def mCat (ms : List MC) : MC := ms.foldr mSeq mEps

/-- Match one character satisfying `p`. -/
def mCh (p : Char → Bool) : MC := fun k _prev cs caps =>
  match cs with
  | [] => none
  | c :: rest => if p c then k (some c) rest caps else none

/-- Case-sensitive literal. -/
def mLit (s : String) : MC := mCat (s.data.map (fun ch => mCh (fun c => c = ch)))

/-- Case-insensitive literal (`re.IGNORECASE`); `s` is written lowercase. -/
def mLitCI (s : String) : MC := mCat (s.data.map (fun ch => mCh (fun c => lowerChar c = ch)))

/-- Ordered alternation (Python tries alternatives left to right and
backtracks into later alternatives when the continuation fails). -/
def mAlt : List MC → MC
  | [] => fun _ _ _ _ => none
  | m :: rest => fun k prev cs caps =>
    match m k prev cs caps with
    | some r => some r
    | none => mAlt rest k prev cs caps

/-- Greedy `?`: try with the sub-matcher first, then without. -/
def mOpt (m : MC) : MC := fun k prev cs caps =>
  match m k prev cs caps with
  | some r => some r
  | none => k prev cs caps

/-- Length of the maximal prefix satisfying `p`. -/
def takeRun (p : Char → Bool) : List Char → Nat
  | [] => 0
  | c :: t => if p c then takeRun p t + 1 else 0

/-- Character preceding the position reached after consuming `n` characters. -/
def prevAfter (prev : Option Char) (cs : List Char) : Nat → Option Char
  | 0 => prev
  | n + 1 => cs.get? n

/-- Try consuming `n, n-1, …, lo` characters (greedy with backtracking). -/
def tryCounts (k : K) (prev : Option Char) (cs : List Char) (caps : Caps) (lo : Nat) :
    Nat → Option (Caps × Option Char × List Char)
  | 0 => if lo = 0 then k prev cs caps else none
  | n + 1 =>
    if n + 1 < lo then none
    else
      match k (prevAfter prev cs (n + 1)) (cs.drop (n + 1)) caps with
      | some r => some r
      | none => tryCounts k prev cs caps lo n

/-- Greedy repetition of a character class: `{lo,hi}` (`hi = none`: unbounded,
as in `+` and `*`). -/
def mRepCls (p : Char → Bool) (lo : Nat) (hi : Option Nat) : MC := fun k prev cs caps =>
  let r := takeRun p cs
  let maxN := match hi with | none => r | some b => min r b
  tryCounts k prev cs caps lo maxN

/-- Capture group `i` (0-indexed): records the characters consumed by `m` on
the successful path. -/
def mGrp (i : Nat) (m : MC) : MC := fun k prev cs caps =>
  m (fun prev2 rest caps2 =>
      k prev2 rest (caps2.set i (some (cs.take (cs.length - rest.length))))) prev cs caps

/-- Word boundary `\b`. -/
def mBnd : MC := fun k prev cs caps =>
  let left := match prev with | none => false | some c => isWordCh c
  let right := match cs with | [] => false | c :: _ => isWordCh c
  if left != right then k prev cs caps else none

/-- A hand-compiled pattern together with its number of capture groups. -/
structure CompiledPat where
  mc : MC
  ngroups : Nat

/-- Try to match `p` exactly at the current position. -/
def matchAt (p : CompiledPat) (prev : Option Char) (cs : List Char) :
    Option (Caps × Option Char × List Char) :=
  p.mc (fun prev2 rest caps => some (caps, prev2, rest)) prev cs
    (List.replicate p.ngroups none)

/-- `pat.search`: leftmost match. -/
def reSearch (p : CompiledPat) : Option Char → List Char → Option (Caps × Option Char × List Char)
  | prev, cs =>
    match matchAt p prev cs with
    | some r => some r
    | none =>
      match cs with
      | [] => none
      | c :: rest => reSearch p (some c) rest

/-- `for m in pat.finditer(t): …` with a per-match handler whose failure
(`continue` in the source, e.g. a failed month lookup or a `ValueError`
from `date(...)`) moves on to the next non-overlapping match.  All the
patterns below consume at least one character per match, so fuel
`length + 1` never runs out. -/
def findIterM {α : Type} (p : CompiledPat) (handler : Caps → Option α) :
    Nat → Option Char → List Char → Option α
  | 0, _, _ => none
  | fuel + 1, prev, cs =>
    match matchAt p prev cs with
    | some (caps, prev2, rest) =>
      match handler caps with
      | some a => some a
      | none => findIterM p handler fuel prev2 rest
    | none =>
      match cs with
      | [] => none
      | c :: rest => findIterM p handler fuel (some c) rest

/-- Python `m.group(i)` (1-indexed; a group the regex does not have, such as
`m.group(2)` for the one-group numeric date pattern, yields `none`, which
models the `IndexError` swallowed by the `except` clause). -/
def pyGroup (caps : Caps) (i : Nat) : Option (List Char) :=
  match caps.get? (i - 1) with
  | some o => o
  | none => none

/-- `" ".join(g for g in m.groups() if g)`: non-`None`, non-empty captures
joined by a single space. -/
def joinGroups (caps : Caps) : List Char :=
  List.intercalate [' ']
    (caps.filterMap (fun o =>
      match o with
      | some l => if l.isEmpty then none else some l
      | none => none))

/-- First `some` in a list, leftmost-first. -/
def firstSome {α : Type} : List (Option α) → Option α
  | [] => none
  | some a :: _ => some a
  | none :: t => firstSome t

/-! ## DATE_PATTERNS (watch_races.py lines 29-40) and their handlers
(`parse_date_fragment`, lines 53-81) -/

/-- Class `[0-3]` (first, optional digit of `([0-3]?\d)`). -/
def in03 (c : Char) : Bool := '0' ≤ c && c ≤ '3'

/-- Class `[a-zçãéíóú]` under `re.IGNORECASE` (PT month letters). -/
def ptLetter (c : Char) : Bool :=
  let lc := lowerChar c
  ('a' ≤ lc && lc ≤ 'z') || lc = 'ç' || lc = 'ã' || lc = 'é' || lc = 'í' || lc = 'ó' || lc = 'ú'

/-- Class `[a-záéíóúñ]` under `re.IGNORECASE` (ES month letters). -/
def esLetter (c : Char) : Bool :=
  let lc := lowerChar c
  ('a' ≤ lc && lc ≤ 'z') || lc = 'á' || lc = 'é' || lc = 'í' || lc = 'ó' || lc = 'ú' || lc = 'ñ'

/-- The capture `([0-3]?\d)` (shared by several patterns). -/
def dayGroup : MC := mGrp 0 (mCat [mOpt (mCh in03), mCh isDigitCh])

/-- `\b([0-3]?\d)/\-\./\-\.\b` — the numeric date pattern exactly as it
appears on line 31: after the capture group it requires the literal
six-character sequence slash, hyphen, dot, slash, hyphen, dot (`\-` is a
literal hyphen and `\.` a literal dot), and it has a single capture
group. -/
def dmyNumericPat : CompiledPat :=
  { mc := mCat [mBnd, dayGroup, mLit "/-./-.", mBnd]
    ngroups := 1 }

/-- Handler for `dmy_numeric` (lines 60-61): `d, mn, y = int(m.group(1)),
int(m.group(2)), int(m.group(3))`.  The regex has one group, so
`m.group(2)` raises `IndexError`, caught by the `except` clause: the
handler can never succeed. -/
def dmyHandler (caps : Caps) : Option PyDate :=
  match pyGroup caps 1, pyGroup caps 2, pyGroup caps 3 with
  | some g1, some g2, some g3 => pyDate (decNat g3) (decNat g2) (decNat g1)
  | _, _, _ => none

/-- `\b([0-3]?\d)\s+de\s+([a-zçãéíóú]+)\s+de\s+(\d{4})\b` (IGNORECASE). -/
def ptLongPat : CompiledPat :=
  { mc := mCat [mBnd, dayGroup, mRepCls isSpaceCh 1 none, mLitCI "de",
                mRepCls isSpaceCh 1 none, mGrp 1 (mRepCls ptLetter 1 none),
                mRepCls isSpaceCh 1 none, mLitCI "de", mRepCls isSpaceCh 1 none,
                mGrp 2 (mRepCls isDigitCh 4 (some 4)), mBnd]
    ngroups := 3 }

/-- `mon.replace('ç','c').replace('ã','a')` (line 64). -/
def ptReplace (l : List Char) : List Char :=
  l.map (fun c => if c = 'ç' then 'c' else if c = 'ã' then 'a' else c)

/-- Handler for `pt_long` (lines 62-65). -/
def ptLongHandler (caps : Caps) : Option PyDate :=
  match pyGroup caps 1, pyGroup caps 2, pyGroup caps 3 with
  | some g1, some mon, some g3 =>
    match (PT_MONTHS.lookup (String.mk mon)).orElse
        (fun _ => PT_MONTHS.lookup (String.mk (ptReplace mon))) with
    | some mn => pyDate (decNat g3) mn (decNat g1)
    | none => none
  | _, _, _ => none

/-- `\b([0-3]?\d)\s+de\s+([a-záéíóúñ]+)\s+de\s+(\d{4})\b` (IGNORECASE). -/
def esLongPat : CompiledPat :=
  { mc := mCat [mBnd, dayGroup, mRepCls isSpaceCh 1 none, mLitCI "de",
                mRepCls isSpaceCh 1 none, mGrp 1 (mRepCls esLetter 1 none),
                mRepCls isSpaceCh 1 none, mLitCI "de", mRepCls isSpaceCh 1 none,
                mGrp 2 (mRepCls isDigitCh 4 (some 4)), mBnd]
    ngroups := 3 }

/-- Handler for `es_long` (lines 66-68). -/
def esLongHandler (caps : Caps) : Option PyDate :=
  match pyGroup caps 1, pyGroup caps 2, pyGroup caps 3 with
  | some g1, some mon, some g3 =>
    match ES_MONTHS.lookup (String.mk mon) with
    | some mn => pyDate (decNat g3) mn (decNat g1)
    | none => none
  | _, _, _ => none

/-- `\b([A-Za-z]+)\s+([0-3]?\d),\s*(\d{4})\b` (no flag). -/
def enLongPat : CompiledPat :=
  { mc := mCat [mBnd, mGrp 0 (mRepCls isAsciiAlpha 1 none), mRepCls isSpaceCh 1 none,
                mGrp 1 (mCat [mOpt (mCh in03), mCh isDigitCh]), mLit ",",
                mRepCls isSpaceCh 0 none, mGrp 2 (mRepCls isDigitCh 4 (some 4)), mBnd]
    ngroups := 3 }

/-- Handler for `en_long` (lines 69-71): month name first, looked up
lowercased in the EN table. -/
def enLongHandler (caps : Caps) : Option PyDate :=
  match pyGroup caps 1, pyGroup caps 2, pyGroup caps 3 with
  | some mon, some g2, some g3 =>
    match EN_MONTHS.lookup (String.mk (mon.map lowerChar)) with
    | some mn => pyDate (decNat g3) mn (decNat g2)
    | none => none
  | _, _, _ => none

/-- `\b([0-3]?\d)\s+([A-Za-z]{3,})[,]?\s+(\d{4})\b` (no flag). -/
def dayMonAnyPat : CompiledPat :=
  { mc := mCat [mBnd, dayGroup, mRepCls isSpaceCh 1 none,
                mGrp 1 (mRepCls isAsciiAlpha 3 none), mRepCls (fun c => c = ',') 0 (some 1),
                mRepCls isSpaceCh 1 none, mGrp 2 (mRepCls isDigitCh 4 (some 4)), mBnd]
    ngroups := 3 }

/-- Handler for `day_mon_any` (lines 72-75): EN, then PT, then ES lookup. -/
def dayMonAnyHandler (caps : Caps) : Option PyDate :=
  match pyGroup caps 1, pyGroup caps 2, pyGroup caps 3 with
  | some g1, some mon, some g3 =>
    match ((EN_MONTHS.lookup (String.mk (mon.map lowerChar))).orElse
        (fun _ => PT_MONTHS.lookup (String.mk (mon.map lowerChar)))).orElse
        (fun _ => ES_MONTHS.lookup (String.mk (mon.map lowerChar))) with
    | some mn => pyDate (decNat g3) mn (decNat g1)
    | none => none
  | _, _, _ => none

/-- The five pattern families in source order, each paired with its
handler branch from the `kind` dispatch in `parse_date_fragment`. -/
def DATE_PATTERNS : List (CompiledPat × (Caps → Option PyDate)) :=
  [(dmyNumericPat, dmyHandler), (ptLongPat, ptLongHandler), (esLongPat, esLongHandler),
   (enLongPat, enLongHandler), (dayMonAnyPat, dayMonAnyHandler)]

/-- `parse_date_fragment` (lines 53-81): lowercase the fragment, then for
each pattern family in order run `finditer`; the first match whose handler
neither fails a month lookup nor raises in `date(...)` yields the date. -/
def parse_date_fragment (fragment : String) : Option PyDate :=
  let t := fragment.data.map lowerChar
  firstSome (DATE_PATTERNS.map (fun ph => findIterM ph.1 ph.2 (t.length + 1) none t))

/-! ## OPENING_PHRASES (lines 42-51) and `extract_opening_date` (83-91) -/

/-- The date alternation shared by the two English phrases: a long form
`[A-Za-z]+ \d{1,2}, \d{4}`, a day-first form `\d{1,2}\s+[A-Za-z]+\s+\d{4}`,
or a numeric form `\d{1,2}` slash-or-hyphen `\d{1,2}` slash-or-hyphen
`\d{4}`. -/
def enDateAlt : MC := mAlt
  [mCat [mRepCls isAsciiAlpha 1 none, mLit " ", mRepCls isDigitCh 1 (some 2), mLit ", ",
         mRepCls isDigitCh 4 (some 4)],
   mCat [mRepCls isDigitCh 1 (some 2), mRepCls isSpaceCh 1 none, mRepCls isAsciiAlpha 1 none,
         mRepCls isSpaceCh 1 none, mRepCls isDigitCh 4 (some 4)],
   mCat [mRepCls isDigitCh 1 (some 2), mCh (fun c => c = '/' || c = '-'),
         mRepCls isDigitCh 1 (some 2), mCh (fun c => c = '/' || c = '-'),
         mRepCls isDigitCh 4 (some 4)]]

/-- `\bregistration(s)? (will )?open(s)? on\s+(<date>)` (IGNORECASE). -/
def phrase0 : CompiledPat :=
  { mc := mCat [mBnd, mLitCI "registration", mOpt (mGrp 0 (mLitCI "s")), mLit " ",
                mOpt (mGrp 1 (mLitCI "will ")), mLitCI "open", mOpt (mGrp 2 (mLitCI "s")),
                mLitCI " on", mRepCls isSpaceCh 1 none, mGrp 3 enDateAlt]
    ngroups := 4 }

/-- `\bopens on\s+(<date>)` (IGNORECASE). -/
def phrase1 : CompiledPat :=
  { mc := mCat [mBnd, mLitCI "opens on", mRepCls isSpaceCh 1 none, mGrp 0 enDateAlt]
    ngroups := 1 }

/-- `\d{1,2}\s+de\s+[a-záéíóúñ]+\s+de\s+\d{4}` (the ES date body). -/
def esDateSeq : MC :=
  mCat [mRepCls isDigitCh 1 (some 2), mRepCls isSpaceCh 1 none, mLitCI "de",
        mRepCls isSpaceCh 1 none, mRepCls esLetter 1 none, mRepCls isSpaceCh 1 none,
        mLitCI "de", mRepCls isSpaceCh 1 none, mRepCls isDigitCh 4 (some 4)]

/-- `\b(la|las)\s+inscripciones?\s+(se\s+)?abr(ir[aá]n|en)\s+el\s+(<date>)` (IGNORECASE). -/
def phrase2 : CompiledPat :=
  { mc := mCat [mBnd, mGrp 0 (mAlt [mLitCI "la", mLitCI "las"]), mRepCls isSpaceCh 1 none,
                mLitCI "inscripcione", mOpt (mLitCI "s"), mRepCls isSpaceCh 1 none,
                mOpt (mGrp 1 (mCat [mLitCI "se", mRepCls isSpaceCh 1 none])),
                mLitCI "abr",
                mGrp 2 (mAlt [mCat [mLitCI "ir", mCh (fun c => lowerChar c = 'a' || lowerChar c = 'á'),
                                    mLitCI "n"],
                              mLitCI "en"]),
                mRepCls isSpaceCh 1 none, mLitCI "el", mRepCls isSpaceCh 1 none,
                mGrp 3 esDateSeq]
    ngroups := 4 }

/-- `\bapertura de inscripciones\s+(el|en)\s+(<date>)` (IGNORECASE). -/
def phrase3 : CompiledPat :=
  { mc := mCat [mBnd, mLitCI "apertura de inscripciones", mRepCls isSpaceCh 1 none,
                mGrp 0 (mAlt [mLitCI "el", mLitCI "en"]), mRepCls isSpaceCh 1 none,
                mGrp 1 esDateSeq]
    ngroups := 2 }

/-- `\d{1,2}\s+de\s+[a-zçãéíóú]+\s+de\s+\d{4}` (the PT date body). -/
def ptDateSeq : MC :=
  mCat [mRepCls isDigitCh 1 (some 2), mRepCls isSpaceCh 1 none, mLitCI "de",
        mRepCls isSpaceCh 1 none, mRepCls ptLetter 1 none, mRepCls isSpaceCh 1 none,
        mLitCI "de", mRepCls isSpaceCh 1 none, mRepCls isDigitCh 4 (some 4)]

/-- `\b(inscri[cç][õo]es?)\s+(abrem|abrir[aã]o)\s+em\s+(<date>)` (IGNORECASE). -/
def phrase4 : CompiledPat :=
  { mc := mCat [mBnd,
                mGrp 0 (mCat [mLitCI "inscri", mCh (fun c => lowerChar c = 'c' || lowerChar c = 'ç'),
                              mCh (fun c => lowerChar c = 'õ' || lowerChar c = 'o'),
                              mLitCI "e", mOpt (mLitCI "s")]),
                mRepCls isSpaceCh 1 none,
                mGrp 1 (mAlt [mLitCI "abrem",
                              mCat [mLitCI "abrir", mCh (fun c => lowerChar c = 'a' || lowerChar c = 'ã'),
                                    mLitCI "o"]]),
                mRepCls isSpaceCh 1 none, mLitCI "em", mRepCls isSpaceCh 1 none,
                mGrp 2 ptDateSeq]
    ngroups := 3 }

/-- The phrase patterns in source order. -/
def OPENING_PHRASES : List CompiledPat := [phrase0, phrase1, phrase2, phrase3, phrase4]

/-- `pat.search(text)` followed by the fragment construction
`" ".join(g for g in m.groups() if g)` (line 88). -/
def phraseFrag (p : CompiledPat) (text : List Char) : Option (List Char) :=
  match reSearch p none text with
  | some (caps, _, _) => some (joinGroups caps)
  | none => none

/-- `extract_opening_date` (lines 83-91): for each phrase pattern in order,
search; on a match, parse the joined captures; return the first parsed
date (`if d: return d` — a match whose fragment fails to parse falls
through to the NEXT pattern). -/
def extract_opening_date (text : String) : Option PyDate :=
  firstSome (OPENING_PHRASES.map (fun p =>
    (phraseFrag p text.data).bind (fun f => parse_date_fragment (String.mk f))))

/-! ## Event evaluation (watch_races.py lines 174-196)

The source materialises `status = "closed"` in the block branch and a
boolean `notify`; the spec labels the notify branches OPEN and the final
fall-through UNKNOWN (section 4.4).  `WStatus` records that mapping:
`closed` for the branch at line 183-186, `opened` whenever `notify`
becomes true, `unknown` otherwise. -/

inductive WStatus where
  | opened
  | closed
  | unknown
deriving DecidableEq, Repr

structure WFinding where
  status : WStatus
  reason : Option String
  notify : Bool
deriving DecidableEq, Repr

/-- Zero-padded decimal of width `w` (as `strftime` produces). -/
def padNum (w n : Nat) : String :=
  let s := toString n
  String.mk (List.replicate (w - s.length) '0') ++ s

/-- `d_open.strftime('%d/%m/%Y')`. -/
def strftimeDMY (d : PyDate) : String :=
  padNum 2 d.day ++ "/" ++ padNum 2 d.month ++ "/" ++ padNum 4 d.year

/-- Reason string of the block branch (line 185). -/
def blockReason (hit_block : List String) : String :=
  "Status indica fechamento (" ++ String.intercalate ", " hit_block ++ ")."

/-- Reason string of the in-window date branch (line 193). -/
def openDateReason (d : PyDate) (delta : Int) : String :=
  "Abertura de inscrições detectada: **" ++ strftimeDMY d ++ "** (faltam " ++
    toString delta ++ " dias)."

/-- Reason string of the keyword branch (line 196). -/
def kwReason (hit_any : List String) : String :=
  "Palavras‑chave encontradas: " ++ String.intercalate ", " hit_any ++ "."

/-- Lines 183-196: block-only suppression first; otherwise an in-window
opening date sets `notify`; otherwise (`if not notify and hit_any`) the
positive keywords do. -/
def evaluate (hit_any hit_block : List String) (d_open : Option PyDate)
    (todayOrd window_days : Int) : WFinding :=
  if hit_block ≠ [] ∧ hit_any = [] ∧ d_open = none then
    { status := .closed, reason := some (blockReason hit_block), notify := false }
  else
    match d_open with
    | some d =>
      let delta := days_until d todayOrd
      if 0 ≤ delta ∧ delta ≤ window_days then
        { status := .opened, reason := some (openDateReason d delta), notify := true }
      else if hit_any ≠ [] then
        { status := .opened, reason := some (kwReason hit_any), notify := true }
      else
        { status := .unknown, reason := none, notify := false }
    | none =>
      if hit_any ≠ [] then
        { status := .opened, reason := some (kwReason hit_any), notify := true }
      else
        { status := .unknown, reason := none, notify := false }

/-! ## Dedupe / state store of watch_races.py (lines 199-217)

`state["last"]` maps a url to `{"sig": …, "when": ISO timestamp}`.  The
`when` field is `Option Int` because `datetime.fromisoformat` is wrapped
in try/except: an unparsable timestamp behaves like no timestamp. -/

structure WRec where
  sig : String
  when : Option Int
deriving DecidableEq, Repr

structure StateW where
  last : List (String × WRec)
deriving DecidableEq, Repr

def dictGet (l : List (String × WRec)) (k : String) : Option WRec := l.lookup k

def dictSet (l : List (String × WRec)) (k : String) (v : WRec) : List (String × WRec) :=
  (k, v) :: l.filter (fun p => p.1 != k)

/-- Lines 201-211: notification goes ahead unless a record for the url
exists whose `sig` equals the new signature and whose timestamp parses and
lies within `dedupe_days` (spec section 4.5 calls this `shouldNotify`). -/
def shouldNotify (st : StateW) (url sig : String) (now dedupe_days : Int) : Bool :=
  match dictGet st.last url with
  | none => true
  | some r =>
    !(r.sig == sig && (match r.when with
        | none => false
        | some t => decide (now - t < dedupe_days * 86400)))

/-- Line 217: `state["last"][url] = {"sig": sig, "when": now.isoformat()}`. -/
def record (st : StateW) (url sig : String) (now : Int) : StateW :=
  { last := dictSet st.last url ⟨sig, some now⟩ }

/-! ## `hash_content` (watch_races.py lines 112-113)

`hashlib.sha256(text.encode('utf-8')).hexdigest()[:16]`, embedded as
FIPS 180-4 SHA-256 over the UTF-8 bytes, with 32-bit words as `Nat % 2^32`. -/

def w32 (x : Nat) : Nat := x % 4294967296

def rotr (n x : Nat) : Nat := w32 ((x >>> n) ||| (x <<< (32 - n)))

def bigSigma0 (x : Nat) : Nat := (rotr 2 x) ^^^ (rotr 13 x) ^^^ (rotr 22 x)

def bigSigma1 (x : Nat) : Nat := (rotr 6 x) ^^^ (rotr 11 x) ^^^ (rotr 25 x)

def smallSigma0 (x : Nat) : Nat := (rotr 7 x) ^^^ (rotr 18 x) ^^^ (x >>> 3)

def smallSigma1 (x : Nat) : Nat := (rotr 17 x) ^^^ (rotr 19 x) ^^^ (x >>> 10)

/-- Ch(x,y,z); `4294967295 - x` is the 32-bit complement of `x < 2^32`. -/
def chFn (x y z : Nat) : Nat := (x &&& y) ^^^ ((4294967295 - x) &&& z)

def majFn (x y z : Nat) : Nat := (x &&& y) ^^^ (x &&& z) ^^^ (y &&& z)

def SHA_K : List Nat :=
  [0x428a2f98, 0x71374491, 0xb5c0fbcf, 0xe9b5dba5, 0x3956c25b, 0x59f111f1, 0x923f82a4, 0xab1c5ed5,
   0xd807aa98, 0x12835b01, 0x243185be, 0x550c7dc3, 0x72be5d74, 0x80deb1fe, 0x9bdc06a7, 0xc19bf174,
   0xe49b69c1, 0xefbe4786, 0x0fc19dc6, 0x240ca1cc, 0x2de92c6f, 0x4a7484aa, 0x5cb0a9dc, 0x76f988da,
   0x983e5152, 0xa831c66d, 0xb00327c8, 0xbf597fc7, 0xc6e00bf3, 0xd5a79147, 0x06ca6351, 0x14292967,
   0x27b70a85, 0x2e1b2138, 0x4d2c6dfc, 0x53380d13, 0x650a7354, 0x766a0abb, 0x81c2c92e, 0x92722c85,
   0xa2bfe8a1, 0xa81a664b, 0xc24b8b70, 0xc76c51a3, 0xd192e819, 0xd6990624, 0xf40e3585, 0x106aa070,
   0x19a4c116, 0x1e376c08, 0x2748774c, 0x34b0bcb5, 0x391c0cb3, 0x4ed8aa4a, 0x5b9cca4f, 0x682e6ff3,
   0x748f82ee, 0x78a5636f, 0x84c87814, 0x8cc70208, 0x90befffa, 0xa4506ceb, 0xbef9a3f7, 0xc67178f2]

structure Hash8 where
  h0 : Nat
  h1 : Nat
  h2 : Nat
  h3 : Nat
  h4 : Nat
  h5 : Nat
  h6 : Nat
  h7 : Nat
deriving DecidableEq, Repr

def SHA_H0 : Hash8 :=
  ⟨0x6a09e667, 0xbb67ae85, 0x3c6ef372, 0xa54ff53a, 0x510e527f, 0x9b05688c, 0x1f83d9ab, 0x5be0cd19⟩

/-- One compression round; the pair is `(K[i], W[i])`. -/
def shaRound (st : Hash8) (kw : Nat × Nat) : Hash8 :=
  let t1 := w32 (st.h7 + bigSigma1 st.h4 + chFn st.h4 st.h5 st.h6 + kw.1 + kw.2)
  let t2 := w32 (bigSigma0 st.h0 + majFn st.h0 st.h1 st.h2)
  ⟨w32 (t1 + t2), st.h0, st.h1, st.h2, w32 (st.h3 + t1), st.h4, st.h5, st.h6⟩

/-- Extend a 16-word block to the 64-word message schedule. -/
def extendSchedule : List Nat → Nat → List Nat
  | w, 0 => w
  | w, n + 1 =>
    let l := w.length
    let nw := w32 (smallSigma1 (w.getD (l - 2) 0) + w.getD (l - 7) 0 +
                   smallSigma0 (w.getD (l - 15) 0) + w.getD (l - 16) 0)
    extendSchedule (w ++ [nw]) n

def shaCompress (st : Hash8) (block : List Nat) : Hash8 :=
  let w := extendSchedule block 48
  let f := (SHA_K.zip w).foldl shaRound st
  ⟨w32 (st.h0 + f.h0), w32 (st.h1 + f.h1), w32 (st.h2 + f.h2), w32 (st.h3 + f.h3),
   w32 (st.h4 + f.h4), w32 (st.h5 + f.h5), w32 (st.h6 + f.h6), w32 (st.h7 + f.h7)⟩

/-- Group bytes into big-endian 32-bit words. -/
def bytesToWords : List Nat → List Nat
  | b0 :: b1 :: b2 :: b3 :: rest =>
    (b0 * 16777216 + b1 * 65536 + b2 * 256 + b3) :: bytesToWords rest
  | _ => []

/-- Split into 64-byte blocks (fuelled by the list length). -/
def chunks64 : Nat → List Nat → List (List Nat)
  | 0, _ => []
  | _, [] => []
  | n + 1, l => l.take 64 :: chunks64 n (l.drop 64)

/-- 64-bit big-endian length field. -/
def lenBytes8 (n : Nat) : List Nat :=
  [n / 72057594037927936 % 256, n / 281474976710656 % 256, n / 1099511627776 % 256,
   n / 4294967296 % 256, n / 16777216 % 256, n / 65536 % 256, n / 256 % 256, n % 256]

/-- SHA-256 padding: `0x80`, zeros to 56 mod 64, 8-byte bit length. -/
def padMsg (l : List Nat) : List Nat :=
  let ml := l.length
  let zeros := (64 + 56 - ((ml + 1) % 64)) % 64
  l ++ [128] ++ List.replicate zeros 0 ++ lenBytes8 (ml * 8)

def wordBytes (w : Nat) : List Nat :=
  [w / 16777216 % 256, w / 65536 % 256, w / 256 % 256, w % 256]

/-- The 32-byte SHA-256 digest of a byte string. -/
def sha256 (msg : List Nat) : List Nat :=
  let p := padMsg msg
  let fin := (chunks64 p.length p).foldl (fun st b => shaCompress st (bytesToWords b)) SHA_H0
  wordBytes fin.h0 ++ wordBytes fin.h1 ++ wordBytes fin.h2 ++ wordBytes fin.h3 ++
  wordBytes fin.h4 ++ wordBytes fin.h5 ++ wordBytes fin.h6 ++ wordBytes fin.h7

def hexDigitCh (n : Nat) : Char := "0123456789abcdef".data.getD n '0'

def byteHex (b : Nat) : List Char := [hexDigitCh (b / 16), hexDigitCh (b % 16)]

/-- `.hexdigest()`. -/
def hexdigest (bs : List Nat) : String := String.mk (bs.flatMap byteHex)

/-- Python `str.encode('utf-8')` of one character. -/
def utf8Char (c : Char) : List Nat :=
  let n := c.toNat
  if n < 128 then [n]
  else if n < 2048 then [192 + n / 64, 128 + n % 64]
  else if n < 65536 then [224 + n / 4096, 128 + (n / 64) % 64, 128 + n % 64]
  else [240 + n / 262144, 128 + (n / 4096) % 64, 128 + (n / 64) % 64, 128 + n % 64]

def utf8Bytes (s : String) : List Nat := s.data.flatMap utf8Char

/-- `hash_content` (lines 112-113):
`hashlib.sha256(text.encode('utf-8')).hexdigest()[:16]`. -/
def hash_content (text : String) : String :=
  (hexdigest (sha256 (utf8Bytes text))).take 16

/-- Sanity check of the SHA-256 embedding against the FIPS 180-4 test
vector for "abc". -/
theorem sha256_abc_test_vector :
    hexdigest (sha256 (utf8Bytes "abc")) =
      "ba7816bf8f01cfea414140de5dae2223b00361a396177a9cb410ff61f20015ad" := by
  decide

/-! ## watch_races.py orchestrator (lines 146-228)

`fetch_url` + `html_to_text` are the external collaborators of spec
section 1; the run is parameterised by an opaque page-text acquisition
`pageText` which either yields the visible text or fails like the
`except urllib.error.HTTPError` / `except Exception` branches. -/

inductive WFetchErr where
  | http (code : Nat)
  | other (msg : String)
deriving DecidableEq, Repr

/-- Observable per-URL outcome of the loop body: the notification action
(external sinks + state update + print), the dedupe skip print, the
no-news print, or one of the two exception diagnostics (lines 223-226). -/
inductive WLine where
  | notified (name url reason : String)
  | dedup (name url : String)
  | noNews (name url : String)
  | httpErr (url : String) (code : Nat)
  | genErr (url msg : String)
deriving DecidableEq, Repr

def wErrLine (url : String) : WFetchErr → WLine
  | .http c => .httpErr url c
  | .other m => .genErr url m

/-- One iteration of the inner `for url in urls` loop (lines 168-226). -/
def wStep (pageText : String → Except WFetchErr String)
    (todayOrd now window_days dedupe_days : Int) (name : String)
    (kw_any kw_block : List String) (st : StateW) (url : String) :
    StateW × List WLine :=
  match pageText url with
  | .error e => (st, [wErrLine url e])
  | .ok text =>
    let low := normW text
    let hit_any := kw_any.filter (fun k => !(k == "") && containsStr low k)
    let hit_block := kw_block.filter (fun k => !(k == "") && containsStr low k)
    let d_open := extract_opening_date text
    let f := evaluate hit_any hit_block d_open todayOrd window_days
    if f.notify then
      let reason := match f.reason with | some r => r | none => "None"
      let sig := hash_content (url ++ "|" ++ reason)
      if shouldNotify st url sig now dedupe_days then
        (record st url sig now, [.notified name url reason])
      else
        (st, [.dedup name url])
    else
      (st, [.noNews name url])

def wRunUrls (pageText : String → Except WFetchErr String)
    (todayOrd now window_days dedupe_days : Int) (name : String)
    (kw_any kw_block : List String) : StateW → List String → StateW × List WLine
  | st, [] => (st, [])
  | st, url :: rest =>
    let s1 := wStep pageText todayOrd now window_days dedupe_days name kw_any kw_block st url
    let s2 := wRunUrls pageText todayOrd now window_days dedupe_days name kw_any kw_block s1.1 rest
    (s2.1, s1.2 ++ s2.2)

/-- An event from events.yml; `locale` is read into `locale_hint` at line
166 but never used afterwards, so it is omitted. -/
structure WEvent where
  name : String
  urls : List String
  keywords_any : List String
  keywords_block : List String
deriving DecidableEq, Repr

def wRunEvents (pageText : String → Except WFetchErr String)
    (todayOrd now window_days dedupe_days : Int) :
    StateW → List WEvent → StateW × List WLine
  | st, [] => (st, [])
  | st, ev :: rest =>
    let kwA := ev.keywords_any.map normW
    let kwB := ev.keywords_block.map normW
    let s1 := wRunUrls pageText todayOrd now window_days dedupe_days ev.name kwA kwB st ev.urls
    let s2 := wRunEvents pageText todayOrd now window_days dedupe_days s1.1 rest
    (s2.1, s1.2 ++ s2.2)

structure WRunResult where
  finalState : StateW
  output : List WLine
  saved : Bool
deriving DecidableEq, Repr

/-- The whole watch_races run: after the event loop, `save_state(state)` is
called UNCONDITIONALLY (line 228, outside any conditional); `saved` records
whether the persistence call happened. -/
def wMain (pageText : String → Except WFetchErr String)
    (todayOrd now window_days dedupe_days : Int)
    (events : List WEvent) (st0 : StateW) : WRunResult :=
  let r := wRunEvents pageText todayOrd now window_days dedupe_days st0 events
  ⟨r.1, r.2, true⟩

/-! ## check_registrations.py -/

inductive CrErr where
  | http (code : Nat)
  | urlErr (reason : String)
  | generic (msg : String)
deriving DecidableEq, Repr

/-- Python `str.startswith` (used at line 122). -/
def pyStartsWith (s pre : String) : Bool := pre.data.isPrefixOf s.data

/-- `fetch` (check_registrations.py lines 25-42): success yields the
decoded page text (`data.decode(enc, errors="ignore")` never raises;
decoding itself is external); each exception branch returns an in-band
string beginning with a double-underscore tag. -/
def crFetch : Except CrErr String → String
  | .ok text => text
  | .error (.http c) => "__HTTP_ERROR__ " ++ toString c
  | .error (.urlErr r) => "__URL_ERROR__ " ++ r
  | .error (.generic m) => "__GENERIC_ERROR__ " ++ m

/-- `find_any` (lines 48-53) for plain keyword patterns: substring
containment of the keyword in the normalised text.  (The source also
accepts raw regex patterns prefixed "(?i)"; the configured keywords are
plain strings and no claim involves that branch, so only the `re.escape`
branch — literal containment — is embedded.) -/
def find_any (text : String) (patterns : List String) : Bool :=
  let t := normC text
  patterns.any (fun p => containsStr t p)

/-- Line 128: `opened = find_any(html_text, kw_any) and not
find_any(html_text, kw_block)`. -/
def crOpened (html_text : String) (kw_any kw_block : List String) : Bool :=
  find_any html_text kw_any && !(find_any html_text kw_block)

/-- A persisted alert record.  (`dates_2026`, filled by
`detect_dates_2026`, is informational only — its contents come from a
Python set whose iteration order is unspecified — and no claim depends on
it, so it is omitted.) -/
structure CrAlert where
  event : String
  url : String
  reason : String
  ts : Int
deriving DecidableEq, Repr

/-- `within_days` (lines 89-94); `none` models an unparsable ISO timestamp
(the except branch returns False). -/
def within_days (ts : Option Int) (days now : Int) : Bool :=
  match ts with
  | none => false
  | some t => decide (now - t < days * 86400)

/-- Per-URL outcome recorded into `details`. -/
inductive CLine where
  | fetchFail (name url errText : String)
  | openFound (name url : String)
  | notOpen (name url : String)
deriving DecidableEq, Repr

def lowerStr (s : String) : String := String.mk (s.data.map lowerChar)

/-- One iteration of the `for url in urls` loop (lines 120-155); the
accumulator carries `new_alerts` and `details`. -/
def crStep (pageText : String → String) (now dedupe_days : Int) (name : String)
    (kw_any kw_block : List String) (prev_alerts : List CrAlert)
    (acc : List CrAlert × List CLine) (url : String) : List CrAlert × List CLine :=
  let html_text := pageText url
  if pyStartsWith html_text "__" then
    (acc.1, acc.2 ++ [.fetchFail name url html_text])
  else
    let opened := crOpened html_text kw_any kw_block
    if opened then
      let reason := name ++ " — inscrições possivelmente abertas em " ++ url
      let duplicate := prev_alerts.any (fun a =>
        a.event == name && a.url == url && a.reason == reason &&
        within_days (some a.ts) dedupe_days now)
      if duplicate then
        (acc.1, acc.2 ++ [.openFound name url])
      else
        (acc.1 ++ [⟨name, url, reason, now⟩], acc.2 ++ [.openFound name url])
    else
      (acc.1, acc.2 ++ [.notOpen name url])

def crRunUrls (pageText : String → String) (now dedupe_days : Int) (name : String)
    (kw_any kw_block : List String) (prev_alerts : List CrAlert) :
    (List CrAlert × List CLine) → List String → List CrAlert × List CLine
  | acc, [] => acc
  | acc, url :: rest =>
    crRunUrls pageText now dedupe_days name kw_any kw_block prev_alerts
      (crStep pageText now dedupe_days name kw_any kw_block prev_alerts acc url) rest

structure CrEvent where
  name : String
  urls : List String
  keywords_any : List String
  keywords_block : List String
deriving DecidableEq, Repr

def crRunEvents (pageText : String → String) (now dedupe_days : Int)
    (prev_alerts : List CrAlert) :
    (List CrAlert × List CLine) → List CrEvent → List CrAlert × List CLine
  | acc, [] => acc
  | acc, ev :: rest =>
    let kwA := ev.keywords_any.map lowerStr
    let kwB := ev.keywords_block.map lowerStr
    crRunEvents pageText now dedupe_days prev_alerts
      (crRunUrls pageText now dedupe_days ev.name kwA kwB prev_alerts acc ev.urls) rest

structure CrResult where
  new_alerts : List CrAlert
  final_alerts : List CrAlert
  details : List CLine
  saved : Bool
  triggered : Bool
deriving DecidableEq, Repr

/-- The whole check_registrations run (lines 96-214): the merged, pruned
alert list is written back ONLY inside `if new_alerts:` (lines 158-165);
`saved` records whether `save_state` was called, `triggered` is
`bool(new_alerts)`. -/
def crMain (pageText : String → String) (now dedupe_days : Int)
    (events : List CrEvent) (prev_alerts : List CrAlert) : CrResult :=
  let r := crRunEvents pageText now dedupe_days prev_alerts ([], []) events
  if r.1.isEmpty then
    ⟨r.1, prev_alerts, r.2, false, false⟩
  else
    let cutoff := now - 180 * 86400
    let pruned := (prev_alerts ++ r.1).filter (fun a => decide (cutoff ≤ a.ts))
    ⟨r.1, pruned, r.2, true, true⟩

/-! ## Claim theorems -/

/-- C1: Evaluator rule precedence: with blocking hits, no positive
keyword hits and no opening date, the evaluation is status CLOSED with
notify = false; the same block hits together with an opening date whose
days_until lies in [0, window_days] yield status OPEN with notify = true
— the in-window date overrides block-only suppression. -/
theorem C1_rule_precedence (hit_block : List String) (d : PyDate)
    (todayOrd window_days : Int) (hb : hit_block ≠ [])
    (hlo : 0 ≤ days_until d todayOrd) (hhi : days_until d todayOrd ≤ window_days) :
    evaluate [] hit_block none todayOrd window_days =
      ⟨.closed, some (blockReason hit_block), false⟩ ∧
    evaluate [] hit_block (some d) todayOrd window_days =
      ⟨.opened, some (openDateReason d (days_until d todayOrd)), true⟩ := by
  constructor
  · simp [evaluate, hb]
  · simp [evaluate, hb, hlo, hhi]

/-- C1 witness: the precedence theorem applied at hit_block = ["fechado"],
opening date 2026-01-10, "today" 2026-01-01, window 30. -/
theorem C1_rule_precedence_witness :
    ((["fechado"] : List String) ≠ [] ∧
     0 ≤ days_until ⟨2026, 1, 10⟩ (dateOrdinal ⟨2026, 1, 1⟩) ∧
     days_until ⟨2026, 1, 10⟩ (dateOrdinal ⟨2026, 1, 1⟩) ≤ 30) ∧
    evaluate [] ["fechado"] none (dateOrdinal ⟨2026, 1, 1⟩) 30 =
      ⟨.closed, some (blockReason ["fechado"]), false⟩ ∧
    evaluate [] ["fechado"] (some ⟨2026, 1, 10⟩) (dateOrdinal ⟨2026, 1, 1⟩) 30 =
      ⟨.opened, some (openDateReason ⟨2026, 1, 10⟩
        (days_until ⟨2026, 1, 10⟩ (dateOrdinal ⟨2026, 1, 1⟩))), true⟩ :=
  ⟨⟨by decide, by decide, by decide⟩,
   C1_rule_precedence ["fechado"] ⟨2026, 1, 10⟩ (dateOrdinal ⟨2026, 1, 1⟩) 30
     (by decide) (by decide) (by decide)⟩

/-- C6: dedupe window semantics: shouldNotify is false exactly when a
record for the url exists whose signature equals the new one and whose
parsed timestamp satisfies now − last_notified_at < dedupe_days (in
seconds); hence with dedupe_days = 7, after record(sig, t0) the same
signature is suppressed at t0 + 1 day and notifies again at t0 + 8 days. -/
theorem C6_dedupe_window :
    (∀ st url sig now dd,
      shouldNotify st url sig now dd = false ↔
        ∃ r, dictGet st.last url = some r ∧ r.sig = sig ∧
          ∃ t, r.when = some t ∧ now - t < dd * 86400) ∧
    (∀ st url sig t0,
      shouldNotify (record st url sig t0) url sig (t0 + 1 * 86400) 7 = false ∧
      shouldNotify (record st url sig t0) url sig (t0 + 8 * 86400) 7 = true) := by
  constructor
  · intro st url sig now dd
    unfold shouldNotify
    cases h : dictGet st.last url with
    | none => simp [h]
    | some r =>
      cases hw : r.when with
      | none => simp [hw]
      | some t => simp [hw, And.comm]
  · intro st url sig t0
    have hrec : dictGet (record st url sig t0).last url = some ⟨sig, some t0⟩ := by
      simp [record, dictSet, dictGet, List.lookup]
    constructor
    · unfold shouldNotify
      rw [hrec]
      simp
    · unfold shouldNotify
      rw [hrec]
      simp

/-- C3: numeric day-first dates never parse.  The `dmy_numeric` regex on
line 31 has exactly one capture group (after the day it demands the
literal six characters slash hyphen dot slash hyphen dot rather than a
second number and a year), while its handler on line 61 reads
`m.group(2)` and `m.group(3)`; the resulting IndexError is swallowed by
the except clause, so the handler can never produce a date, and in
particular "10/01/2026" and "10-01-2026" parse to nothing — contradicting
both the spec and the pattern's own intent comment on line 30. -/
theorem C3_numeric_date_never_parses :
    dmyNumericPat.ngroups = 1 ∧
    (∀ caps : Caps, caps.length ≤ 1 → dmyHandler caps = none) ∧
    parse_date_fragment "10/01/2026" = none ∧
    parse_date_fragment "10-01-2026" = none := by
  refine ⟨rfl, ?_, by decide, by decide⟩
  intro caps hlen
  have h2 : pyGroup caps 2 = none := by
    unfold pyGroup
    have hg : caps[1]? = none := List.getElem?_eq_none hlen
    simp [hg]
  unfold dmyHandler
  rw [h2]
  cases hg1 : pyGroup caps 1 <;> cases hg3 : pyGroup caps 3 <;> rfl

/-- C3 witness: the never-succeeds conjunct applied to a one-entry capture
list (the only shape the one-group pattern can produce). -/
theorem C3_numeric_date_never_parses_witness :
    ([none] : Caps).length ≤ 1 ∧ dmyHandler [none] = none :=
  ⟨by decide, C3_numeric_date_never_parses.2.1 [none] (by decide)⟩

/-! Helper lemmas about the engine and `pyDate`. -/

theorem firstSome_eq_some {α : Type} :
    ∀ (l : List (Option α)) (a : α), firstSome l = some a → some a ∈ l := by
  intro l
  induction l with
  | nil => intro a h; simp [firstSome] at h
  | cons o t ih =>
    intro a h
    cases o with
    | some b =>
      simp only [firstSome] at h
      simp [h]
    | none =>
      simp only [firstSome] at h
      exact List.mem_cons_of_mem _ (ih a h)

theorem findIterM_succ {α : Type} (p : CompiledPat) (h : Caps → Option α)
    (n : Nat) (prev : Option Char) (cs : List Char) :
    findIterM p h (n + 1) prev cs =
      match matchAt p prev cs with
      | some (caps, prev2, rest) =>
        match h caps with
        | some a => some a
        | none => findIterM p h n prev2 rest
      | none =>
        match cs with
        | [] => none
        | c :: rest => findIterM p h n (some c) rest := rfl

/-- A successful `finditer` loop owes its value to some handler call. -/
theorem findIterM_some_handler {α : Type} (p : CompiledPat) (h : Caps → Option α) :
    ∀ (fuel : Nat) (prev : Option Char) (cs : List Char) (a : α),
      findIterM p h fuel prev cs = some a → ∃ caps, h caps = some a := by
  intro fuel
  induction fuel with
  | zero => intro prev cs a hx; simp [findIterM] at hx
  | succ n ih =>
    intro prev cs a hx
    rw [findIterM_succ] at hx
    cases hm : matchAt p prev cs with
    | none =>
      simp only [hm] at hx
      cases cs with
      | nil => simp at hx
      | cons c rest => exact ih (some c) rest a hx
    | some r =>
      obtain ⟨caps, prev2, rest⟩ := r
      simp only [hm] at hx
      cases hh : h caps with
      | none =>
        simp only [hh] at hx
        exact ih prev2 rest a hx
      | some b =>
        simp only [hh] at hx
        exact ⟨caps, hh.trans hx⟩

theorem pyDate_some_valid {y m d : Nat} {dt : PyDate} (h : pyDate y m d = some dt) :
    dt = ⟨y, m, d⟩ ∧ validDate dt.year dt.month dt.day := by
  unfold pyDate at h
  by_cases hv : validDate y m d
  · rw [if_pos hv] at h
    injection h with h2
    subst h2
    exact ⟨rfl, hv⟩
  · rw [if_neg hv] at h
    exact absurd h (by simp)

/-- Every handler branch of `parse_date_fragment` produces its date through
`date(y, mn, d)`, hence only calendar-valid dates. -/
theorem datePatternHandlers_valid :
    ∀ ph ∈ DATE_PATTERNS, ∀ (caps : Caps) (dt : PyDate), ph.2 caps = some dt →
      validDate dt.year dt.month dt.day := by
  intro ph hmem caps dt h
  simp only [DATE_PATTERNS, List.mem_cons, List.not_mem_nil, or_false] at hmem
  rcases hmem with h1 | h1 | h1 | h1 | h1 <;> subst h1 <;> dsimp only at h
  · unfold dmyHandler at h
    split at h
    · exact (pyDate_some_valid h).2
    · exact absurd h (by simp)
  · unfold ptLongHandler at h
    split at h
    · split at h
      · exact (pyDate_some_valid h).2
      · exact absurd h (by simp)
    · exact absurd h (by simp)
  · unfold esLongHandler at h
    split at h
    · split at h
      · exact (pyDate_some_valid h).2
      · exact absurd h (by simp)
    · exact absurd h (by simp)
  · unfold enLongHandler at h
    split at h
    · split at h
      · exact (pyDate_some_valid h).2
      · exact absurd h (by simp)
    · exact absurd h (by simp)
  · unfold dayMonAnyHandler at h
    split at h
    · split at h
      · exact (pyDate_some_valid h).2
      · exact absurd h (by simp)
    · exact absurd h (by simp)

/-- C5 counterexample: "30 de fevereiro de 2026" is matched by the PT long
pattern with day 30 in 1..31 and a successful month lookup (fevereiro = 2),
yet the parser yields none — `date(2026, 2, 30)` raises and the match is
skipped — refuting the claim that such candidates are returned unchecked. -/
theorem C5_feb30_counterexample :
    List.lookup "fevereiro" PT_MONTHS = some 2 ∧
    pyDate 2026 2 30 = none ∧
    parse_date_fragment "30 de fevereiro de 2026" = none := by decide

/-- C5 amended: calendar validity IS checked: `date(y, mn, d)` validates
(returning none on a ValueError, e.g. Feb 30), and consequently every date
`parse_date_fragment` returns satisfies real calendar rules. -/
theorem C5_calendar_validity_amended :
    (∀ y m d dt, pyDate y m d = some dt → dt = ⟨y, m, d⟩ ∧ validDate y m d) ∧
    (∀ (frag : String) (dt : PyDate), parse_date_fragment frag = some dt →
      validDate dt.year dt.month dt.day) := by
  constructor
  · intro y m d dt h
    obtain ⟨h1, h2⟩ := pyDate_some_valid h
    subst h1
    exact ⟨rfl, h2⟩
  · intro frag dt h
    unfold parse_date_fragment at h
    have hmem := firstSome_eq_some _ _ h
    rw [List.mem_map] at hmem
    obtain ⟨ph, hph, heq⟩ := hmem
    obtain ⟨caps, hcaps⟩ := findIterM_some_handler ph.1 ph.2 _ _ _ _ heq
    exact datePatternHandlers_valid ph hph caps dt hcaps

/-- C5 witness: the amended theorem applied to a parsed concrete fragment. -/
theorem C5_calendar_validity_amended_witness :
    parse_date_fragment "10 de janeiro de 2026" = some ⟨2026, 1, 10⟩ ∧
    validDate 2026 1 10 :=
  ⟨by decide,
   C5_calendar_validity_amended.2 "10 de janeiro de 2026" ⟨2026, 1, 10⟩ (by decide)⟩

/-- C2 counterexample: in check_registrations a block keyword DOES
suppress a positive keyword signal: on a page containing both the
any-keyword "abiertas" and the block keyword "closed", `opened` is false
and the per-URL step produces no alert — refuting the claim that whenever
a positive keyword hits (and no in-window date exists) the result
notifies regardless of block hits. -/
theorem C2_block_suppression_counterexample :
    find_any "Inscripciones abiertas. Closed." ["abiertas"] = true ∧
    find_any "Inscripciones abiertas. Closed." ["closed"] = true ∧
    crOpened "Inscripciones abiertas. Closed." ["abiertas"] ["closed"] = false ∧
    crStep (fun _ => "Inscripciones abiertas. Closed.") 0 7 "Evento" ["abiertas"]
      ["closed"] [] ([], []) "u" = ([], [CLine.notOpen "Evento" "u"]) := by decide

/-- C2 amended: in watch_races the claim holds — with hit_any non-empty
and no in-window opening date the evaluation is OPEN with notify = true
citing the matched keywords, and the CLOSED branch requires hit_any
empty, no date and non-empty hit_block; in check_registrations, however,
any block-keyword hit suppresses the positive signal (line 128:
`opened = find_any(any) and not find_any(block)`). -/
theorem C2_positive_signal_amended
    (hit_any hit_block : List String) (d_open : Option PyDate)
    (todayOrd window_days : Int) (text : String) (ka kb : List String)
    (ha : hit_any ≠ [])
    (hd : ∀ d, d_open = some d →
      ¬(0 ≤ days_until d todayOrd ∧ days_until d todayOrd ≤ window_days)) :
    evaluate hit_any hit_block d_open todayOrd window_days =
      ⟨.opened, some (kwReason hit_any), true⟩ ∧
    (∀ ha2 hb2 dd tOrd wd, (evaluate ha2 hb2 dd tOrd wd).status = .closed →
      ha2 = [] ∧ dd = none ∧ hb2 ≠ []) ∧
    (find_any text kb = true → crOpened text ka kb = false) := by
  refine ⟨?_, ?_, ?_⟩
  · unfold evaluate
    rw [if_neg (by simp [ha])]
    cases d_open with
    | none => simp [ha]
    | some d =>
      dsimp only
      rw [if_neg (hd d rfl)]
      simp [ha]
  · intro ha2 hb2 dd tOrd wd h
    unfold evaluate at h
    split at h
    · next hc => exact ⟨hc.2.1, hc.2.2, hc.1⟩
    · next hc =>
      exfalso
      cases dd with
      | none =>
        dsimp only at h
        split at h <;> simp at h
      | some d =>
        dsimp only at h
        split at h
        · simp at h
        · split at h <;> simp at h
  · intro hb
    simp [crOpened, hb]

/-- C2 witness: the amended theorem applied at hit_any = ["abertas"],
hit_block = ["closed"], no date, and a check_registrations page hitting
the block keyword. -/
theorem C2_positive_signal_amended_witness :
    ((["abertas"] : List String) ≠ []) ∧
    evaluate ["abertas"] ["closed"] none 0 30 =
      ⟨.opened, some (kwReason ["abertas"]), true⟩ ∧
    (find_any "x closed y" ["closed"] = true →
      crOpened "x closed y" ["abertas"] ["closed"] = false) :=
  ⟨by decide,
   (C2_positive_signal_amended ["abertas"] ["closed"] none 0 30 "x closed y"
      ["abertas"] ["closed"] (by decide) (fun d hd0 => nomatch hd0)).1,
   fun h =>
     (C2_positive_signal_amended ["abertas"] ["closed"] none 0 30 "x closed y"
        ["abertas"] ["closed"] (by decide) (fun d hd0 => nomatch hd0)).2.2 h⟩

theorem firstSome_cons_none {α : Type} (t : List (Option α)) :
    firstSome (none :: t) = firstSome t := rfl

theorem firstSome_cons_some {α : Type} (a : α) (t : List (Option α)) :
    firstSome (some a :: t) = some a := rfl

/-- C4 counterexample: on this text the FIRST phrase pattern in list
order (English "registration … opens on …") matches, its concatenated
captures form the fragment "s 10/01/2026", and the date parser cannot
parse that fragment; yet the extractor does not yield none: the later
Portuguese pattern is consulted and its date is returned. -/
theorem C4_first_match_counterexample :
    OPENING_PHRASES[0]? = some phrase0 ∧
    phraseFrag phrase0
      ("Registration opens on 10/01/2026. Inscrições abrem em 10 de janeiro de 2026.").data =
      some "s 10/01/2026".data ∧
    parse_date_fragment "s 10/01/2026" = none ∧
    extract_opening_date
      "Registration opens on 10/01/2026. Inscrições abrem em 10 de janeiro de 2026." =
      some ⟨2026, 1, 10⟩ := by
  refine ⟨rfl, ?_⟩
  decide

/-- C4 amended: the extractor is first-SUCCESSFUL-match wins: the first
pattern in the fixed list order that both matches the text and yields a
fragment the Locale Date Parser can parse determines the result; a
pattern that matches but whose fragment fails to parse does not stop the
scan — later patterns are still consulted. -/
theorem C4_extractor_amended (text : String) (i : Nat) (p : CompiledPat) (d : PyDate)
    (hp : OPENING_PHRASES[i]? = some p)
    (hd : (phraseFrag p text.data).bind (fun f => parse_date_fragment (String.mk f)) = some d)
    (hearlier : ∀ j, j < i → ∀ q, OPENING_PHRASES[j]? = some q →
      (phraseFrag q text.data).bind (fun f => parse_date_fragment (String.mk f)) = none) :
    extract_opening_date text = some d := by
  have hi : i < 5 := by
    by_contra hge
    push_neg at hge
    rw [List.getElem?_eq_none (by simpa using hge)] at hp
    exact nomatch hp
  unfold extract_opening_date
  interval_cases i <;>
    (simp only [OPENING_PHRASES, List.getElem?_cons_zero, List.getElem?_cons_succ] at hp;
     injection hp with hp2; subst hp2;
     simp only [OPENING_PHRASES, List.map_cons, List.map_nil])
  · rw [hd, firstSome_cons_some]
  · rw [hearlier 0 (by norm_num) phrase0 rfl, hd,
       firstSome_cons_none, firstSome_cons_some]
  · rw [hearlier 0 (by norm_num) phrase0 rfl, hearlier 1 (by norm_num) phrase1 rfl, hd,
       firstSome_cons_none, firstSome_cons_none, firstSome_cons_some]
  · rw [hearlier 0 (by norm_num) phrase0 rfl, hearlier 1 (by norm_num) phrase1 rfl,
       hearlier 2 (by norm_num) phrase2 rfl, hd,
       firstSome_cons_none, firstSome_cons_none, firstSome_cons_none, firstSome_cons_some]
  · rw [hearlier 0 (by norm_num) phrase0 rfl, hearlier 1 (by norm_num) phrase1 rfl,
       hearlier 2 (by norm_num) phrase2 rfl, hearlier 3 (by norm_num) phrase3 rfl, hd,
       firstSome_cons_none, firstSome_cons_none, firstSome_cons_none, firstSome_cons_none,
       firstSome_cons_some]

/-- C4 witness: the amended theorem applied at index 1 (the "opens on"
pattern), with the single earlier pattern failing to match. -/
theorem C4_extractor_amended_witness :
    extract_opening_date "Event opens on January 10, 2026" = some ⟨2026, 1, 10⟩ :=
  C4_extractor_amended "Event opens on January 10, 2026" 1 phrase1 ⟨2026, 1, 10⟩ rfl
    (by decide)
    (by
      intro j hj q hq
      interval_cases j
      injection hq with h2
      subst h2
      decide)

/-! Digest facts for the C7 pigeonhole argument. -/

theorem wordBytes_lt (w : Nat) : ∀ b ∈ wordBytes w, b < 256 := by
  intro b hb
  simp only [wordBytes, List.mem_cons, List.not_mem_nil, or_false] at hb
  rcases hb with h | h | h | h <;> subst h <;> exact Nat.mod_lt _ (by norm_num)

theorem sha256_length (msg : List Nat) : (sha256 msg).length = 32 := by
  unfold sha256
  simp [wordBytes]

theorem sha256_bytes_lt (msg : List Nat) : ∀ b ∈ sha256 msg, b < 256 := by
  intro b hb
  unfold sha256 at hb
  simp only [List.mem_append, or_assoc] at hb
  rcases hb with h | h | h | h | h | h | h | h <;> exact wordBytes_lt _ b h

/-- Base-256 value of a byte list (little-endian digits). -/
def encBytes (l : List Nat) : Nat := l.foldr (fun b a => b + 256 * a) 0

theorem encBytes_lt : ∀ l : List Nat, (∀ b ∈ l, b < 256) → encBytes l < 256 ^ l.length := by
  intro l
  induction l with
  | nil => intro _; simp [encBytes]
  | cons b t ih =>
    intro h
    have hb : b < 256 := h b (List.mem_cons_self b t)
    have ht : encBytes t + 1 ≤ 256 ^ t.length :=
      ih (fun x hx => h x (List.mem_cons_of_mem b hx))
    have h3 : encBytes (b :: t) < 256 * (encBytes t + 1) := by
      have h5 : encBytes (b :: t) = b + 256 * encBytes t := rfl
      omega
    have h4 : 256 * (encBytes t + 1) ≤ 256 * 256 ^ t.length := Nat.mul_le_mul_left _ ht
    refine lt_of_lt_of_le h3 (le_trans h4 ?_)
    rw [List.length_cons, pow_succ, Nat.mul_comm]

theorem encBytes_inj : ∀ l1 l2 : List Nat, l1.length = l2.length →
    (∀ b ∈ l1, b < 256) → (∀ b ∈ l2, b < 256) → encBytes l1 = encBytes l2 → l1 = l2 := by
  intro l1
  induction l1 with
  | nil =>
    intro l2 hlen _ _ _
    cases l2 with
    | nil => rfl
    | cons c u => simp at hlen
  | cons b t ih =>
    intro l2 hlen h1 h2 henc
    cases l2 with
    | nil => simp at hlen
    | cons c u =>
      have hb : b < 256 := h1 b (by simp)
      have hc : c < 256 := h2 c (by simp)
      have he : b + 256 * encBytes t = c + 256 * encBytes u := henc
      have hbc : b = c := by omega
      have ht : encBytes t = encBytes u := by omega
      have hrest := ih u (by simpa using hlen) (fun x hx => h1 x (by simp [hx]))
        (fun x hx => h2 x (by simp [hx])) ht
      rw [hbc, hrest]

/-- C7 counterexample: the signature is the 16-hex-character (64-bit)
truncation of SHA-256, a deterministic map from infinitely many reason
strings into a finite set; by pigeonhole two distinct reasons for the
same url share a full digest and hence a signature, so the claim that
different reason text always yields different signatures is false. -/
theorem C7_signature_collision_exists :
    ¬ (∀ url r1 r2 : String, r1 ≠ r2 →
        hash_content (url ++ "|" ++ r1) ≠ hash_content (url ++ "|" ++ r2)) := by
  intro hcl
  have hbound : ∀ s : String, encBytes (sha256 (utf8Bytes s)) < 256 ^ 32 := by
    intro s
    have h := encBytes_lt (sha256 (utf8Bytes s)) (sha256_bytes_lt _)
    rwa [sha256_length] at h
  obtain ⟨i, j, hij, hfeq⟩ :=
    Fintype.exists_ne_map_eq_of_card_lt
      (fun i : Fin (256 ^ 32 + 1) =>
        (⟨encBytes (sha256 (utf8Bytes ("u" ++ "|" ++ String.mk (List.replicate i.val 'a')))),
          hbound _⟩ : Fin (256 ^ 32)))
      (by
        rw [Fintype.card_fin, Fintype.card_fin]
        exact Nat.lt_succ_self _)
  simp only [Fin.mk.injEq] at hfeq
  have hdig : sha256 (utf8Bytes ("u" ++ "|" ++ String.mk (List.replicate i.val 'a'))) =
      sha256 (utf8Bytes ("u" ++ "|" ++ String.mk (List.replicate j.val 'a'))) :=
    encBytes_inj _ _ (by rw [sha256_length, sha256_length])
      (sha256_bytes_lt _) (sha256_bytes_lt _) hfeq
  have hsig : hash_content ("u" ++ "|" ++ String.mk (List.replicate i.val 'a')) =
      hash_content ("u" ++ "|" ++ String.mk (List.replicate j.val 'a')) := by
    unfold hash_content
    rw [hdig]
  have hrne : String.mk (List.replicate i.val 'a') ≠ String.mk (List.replicate j.val 'a') := by
    intro he
    apply hij
    have h2 : List.replicate i.val 'a' = List.replicate j.val 'a' := by
      have h3 := congrArg String.data he
      simpa using h3
    have h4 : i.val = j.val := by
      have h5 := congrArg List.length h2
      simpa using h5
    exact Fin.ext h4
  exact hcl "u" _ _ hrne hsig

/-- C7 amended: the signature derivation can collide in principle (it is
a 64-bit truncation of SHA-256), so "different reason implies different
signature" holds only up to hash collisions; what the dedupe layer does
guarantee is that two findings for the same url whose signature strings
DO differ are never cross-suppressed: after notifying and recording the
first, shouldNotify still accepts the second, so both notify
independently. -/
theorem C7_distinct_signatures_both_notify
    (st : StateW) (url r1 r2 : String) (t1 t2 dd : Int)
    (hne : hash_content (url ++ "|" ++ r1) ≠ hash_content (url ++ "|" ++ r2)) :
    shouldNotify (record st url (hash_content (url ++ "|" ++ r1)) t1) url
      (hash_content (url ++ "|" ++ r2)) t2 dd = true := by
  have hrec : dictGet (record st url (hash_content (url ++ "|" ++ r1)) t1).last url =
      some ⟨hash_content (url ++ "|" ++ r1), some t1⟩ := by
    simp [record, dictSet, dictGet, List.lookup]
  unfold shouldNotify
  rw [hrec]
  simp [hne]

/-- C7 witness: two concrete reasons "a" and "b" for url "u" have
different signatures, and the second notifies right after the first was
recorded. -/
theorem C7_distinct_signatures_both_notify_witness :
    hash_content ("u" ++ "|" ++ "a") ≠ hash_content ("u" ++ "|" ++ "b") ∧
    shouldNotify (record ⟨[]⟩ "u" (hash_content ("u" ++ "|" ++ "a")) 0) "u"
      (hash_content ("u" ++ "|" ++ "b")) 86400 7 = true :=
  ⟨by decide,
   C7_distinct_signatures_both_notify ⟨[]⟩ "u" "a" "b" 0 86400 7 (by decide)⟩

/-- C8 counterexample: a watch_races run in which nothing notifies: the
in-memory state is unchanged by the run, yet save_state is still called
(line 228 is unconditional) — the snapshot is written although the state
did not change, refuting "written only when changed". -/
theorem C8_watch_saves_unconditionally :
    (wMain (fun _ => Except.ok "hello") 0 0 30 3
      [⟨"Evento", ["u"], ["inscrições"], ["closed"]⟩] ⟨[]⟩).finalState = ⟨[]⟩ ∧
    (wMain (fun _ => Except.ok "hello") 0 0 30 3
      [⟨"Evento", ["u"], ["inscrições"], ["closed"]⟩] ⟨[]⟩).output =
      [WLine.noNews "Evento" "u"] ∧
    (wMain (fun _ => Except.ok "hello") 0 0 30 3
      [⟨"Evento", ["u"], ["inscrições"], ["closed"]⟩] ⟨[]⟩).saved = true := by decide

/-- C8 amended: check_registrations persists the snapshot exactly when
the run produced new alerts, and a run with no new alerts leaves the
persisted alert list untouched; watch_races, by contrast, rewrites the
state file unconditionally at the end of every run (with unchanged
content when nothing fired). -/
theorem C8_persistence_amended (pageText : String → String) (now dd : Int)
    (events : List CrEvent) (prev : List CrAlert)
    (wpt : String → Except WFetchErr String) (tOrd wnow wwd wdd : Int)
    (wevents : List WEvent) (wst : StateW) :
    ((crMain pageText now dd events prev).saved = true ↔
      (crMain pageText now dd events prev).new_alerts ≠ []) ∧
    ((crMain pageText now dd events prev).new_alerts = [] →
      (crMain pageText now dd events prev).final_alerts = prev) ∧
    (wMain wpt tOrd wnow wwd wdd wevents wst).saved = true := by
  refine ⟨?_, ?_, rfl⟩
  · unfold crMain
    dsimp only
    by_cases hc : (crRunEvents pageText now dd prev ([], []) events).1.isEmpty = true
    · rw [if_pos hc]
      have h0 : (crRunEvents pageText now dd prev ([], []) events).1 = [] :=
        List.isEmpty_iff.mp hc
      simp [h0]
    · rw [if_neg hc]
      have h0 : (crRunEvents pageText now dd prev ([], []) events).1 ≠ [] := by
        simpa [List.isEmpty_iff] using hc
      simp [h0]
  · intro h
    unfold crMain at h ⊢
    dsimp only at h ⊢
    by_cases hc : (crRunEvents pageText now dd prev ([], []) events).1.isEmpty = true
    · rw [if_pos hc]
    · rw [if_neg hc] at h
      exact absurd h (by simpa [List.isEmpty_iff] using hc)

/-- C8 witness: the conditional-persistence conjunct applied to a run
with no events (hence no new alerts). -/
theorem C8_persistence_amended_witness :
    (crMain (fun _ => "x") 0 7 [] [⟨"E", "u", "r", 0⟩]).new_alerts = [] ∧
    (crMain (fun _ => "x") 0 7 [] [⟨"E", "u", "r", 0⟩]).final_alerts = [⟨"E", "u", "r", 0⟩] :=
  ⟨by decide,
   (C8_persistence_amended (fun _ => "x") 0 7 [] [⟨"E", "u", "r", 0⟩]
      (fun _ => Except.ok "x") 0 0 30 3 [] ⟨[]⟩).2.1 (by decide)⟩

/-- Splitting a watch_races URL run across an append. -/
theorem wRunUrls_append (pageText : String → Except WFetchErr String)
    (todayOrd now wd dd : Int) (name : String) (kwA kwB : List String) :
    ∀ (l1 l2 : List String) (st : StateW),
      wRunUrls pageText todayOrd now wd dd name kwA kwB st (l1 ++ l2) =
        ((wRunUrls pageText todayOrd now wd dd name kwA kwB
            (wRunUrls pageText todayOrd now wd dd name kwA kwB st l1).1 l2).1,
         (wRunUrls pageText todayOrd now wd dd name kwA kwB st l1).2 ++
           (wRunUrls pageText todayOrd now wd dd name kwA kwB
              (wRunUrls pageText todayOrd now wd dd name kwA kwB st l1).1 l2).2) := by
  intro l1
  induction l1 with
  | nil => intro l2 st; simp [wRunUrls]
  | cons u t ih =>
    intro l2 st
    simp only [List.cons_append, wRunUrls, List.append_eq]
    rw [ih]
    simp [List.append_assoc]

/-- C9: fetch-failure isolation.  In watch_races an erroring URL yields
exactly its diagnostic line with the dedupe state untouched, and a run
over before ++ bad :: after equals the run over before followed by the
run over after with only the diagnostic inserted in between; in
check_registrations a page classified as a fetch error likewise only
appends a diagnostic, adding no alert. -/
theorem C9_fetch_failure_isolation
    (pageText : String → Except WFetchErr String) (todayOrd now wd dd : Int)
    (name : String) (kwA kwB : List String) (st : StateW)
    (us1 us2 : List String) (bad : String) (e : WFetchErr)
    (hbad : pageText bad = Except.error e)
    (cpt : String → String) (cnow cdd : Int) (cname : String)
    (ckwA ckwB : List String) (cprev : List CrAlert)
    (cacc : List CrAlert × List CLine) (curl : String)
    (hcb : pyStartsWith (cpt curl) "__" = true) :
    wStep pageText todayOrd now wd dd name kwA kwB st bad = (st, [wErrLine bad e]) ∧
    wRunUrls pageText todayOrd now wd dd name kwA kwB st (us1 ++ bad :: us2) =
      ((wRunUrls pageText todayOrd now wd dd name kwA kwB
          (wRunUrls pageText todayOrd now wd dd name kwA kwB st us1).1 us2).1,
       (wRunUrls pageText todayOrd now wd dd name kwA kwB st us1).2 ++
         wErrLine bad e ::
           (wRunUrls pageText todayOrd now wd dd name kwA kwB
              (wRunUrls pageText todayOrd now wd dd name kwA kwB st us1).1 us2).2) ∧
    crStep cpt cnow cdd cname ckwA ckwB cprev cacc curl =
      (cacc.1, cacc.2 ++ [CLine.fetchFail cname curl (cpt curl)]) := by
  have hstep : ∀ s : StateW,
      wStep pageText todayOrd now wd dd name kwA kwB s bad = (s, [wErrLine bad e]) := by
    intro s
    unfold wStep
    rw [hbad]
  refine ⟨hstep st, ?_, ?_⟩
  · rw [wRunUrls_append]
    have hcons : ∀ s : StateW,
        wRunUrls pageText todayOrd now wd dd name kwA kwB s (bad :: us2) =
          ((wRunUrls pageText todayOrd now wd dd name kwA kwB s us2).1,
           wErrLine bad e :: (wRunUrls pageText todayOrd now wd dd name kwA kwB s us2).2) := by
      intro s
      simp only [wRunUrls]
      rw [hstep s]
      rfl
    rw [hcons]
  · unfold crStep
    rw [if_pos hcb]

/-- C9 witness: a concrete two-good-one-bad run. -/
theorem C9_fetch_failure_isolation_witness :
    wStep (fun u => if u == "bad" then Except.error (WFetchErr.http 404) else Except.ok "ok")
      0 0 30 3 "E" [] [] ⟨[]⟩ "bad" = (⟨[]⟩, [wErrLine "bad" (WFetchErr.http 404)]) ∧
    crStep (fun _ => "__HTTP_ERROR__ 500") 0 7 "E" [] [] [] ([], []) "u" =
      (([] : List CrAlert),
       ([] : List CLine) ++ [CLine.fetchFail "E" "u" "__HTTP_ERROR__ 500"]) :=
  ⟨(C9_fetch_failure_isolation
      (fun u => if u == "bad" then Except.error (WFetchErr.http 404) else Except.ok "ok")
      0 0 30 3 "E" [] [] ⟨[]⟩ [] [] "bad" (WFetchErr.http 404) rfl
      (fun _ => "__HTTP_ERROR__ 500") 0 7 "E" [] [] [] ([], []) "u" (by decide)).1,
   (C9_fetch_failure_isolation
      (fun u => if u == "bad" then Except.error (WFetchErr.http 404) else Except.ok "ok")
      0 0 30 3 "E" [] [] ⟨[]⟩ [] [] "bad" (WFetchErr.http 404) rfl
      (fun _ => "__HTTP_ERROR__ 500") 0 7 "E" [] [] [] ([], []) "u" (by decide)).2.2⟩

/-- C10: in-band fetch-error signalling: every error branch of fetch
returns a string starting with "__"; the orchestrator classifies fetch
errors solely by that prefix, so a SUCCESSFULLY fetched page whose
decoded text starts with "__" is also skipped and reported as a fetch
failure — no alert can result, whatever the keywords. -/
theorem C10_error_prefix_classification
    (e : CrErr) (t : String) (ht : pyStartsWith t "__" = true)
    (now dd : Int) (name : String) (kwA kwB : List String)
    (prev : List CrAlert) (acc : List CrAlert × List CLine) (url : String) :
    pyStartsWith (crFetch (Except.error e)) "__" = true ∧
    crFetch (Except.ok t) = t ∧
    crStep (fun _ => crFetch (Except.ok t)) now dd name kwA kwB prev acc url =
      (acc.1, acc.2 ++ [CLine.fetchFail name url t]) := by
  refine ⟨?_, rfl, ?_⟩
  · cases e <;> simp [crFetch, pyStartsWith, String.data_append, List.isPrefixOf]
  · unfold crStep
    simp only [crFetch]
    rw [if_pos ht]

/-- C10 witness: a page that fetches successfully but reads
"__HTTP_ERROR__-like" text with an open keyword present is still treated
as a fetch failure. -/
theorem C10_error_prefix_classification_witness :
    pyStartsWith "__x inscripciones abiertas" "__" = true ∧
    crStep (fun _ => crFetch (Except.ok "__x inscripciones abiertas")) 0 7 "E"
      ["abiertas"] [] [] ([], []) "u" =
      (([] : List CrAlert),
       ([] : List CLine) ++ [CLine.fetchFail "E" "u" "__x inscripciones abiertas"]) :=
  ⟨by decide,
   (C10_error_prefix_classification (CrErr.http 404) "__x inscripciones abiertas"
      (by decide) 0 7 "E" ["abiertas"] [] [] ([], []) "u").2.2⟩
